import Mathlib

/-!
Shallow embedding of the `http-api-problem` Rust crate (src/lib.rs):
the `HttpStatusCode` registry enum with its `title`, `to_u16` and
`From<u16>` conversions, and the `HttpApiProblem` record with its
constructors and setters.  Machine integers (`u16`) are modelled as
`Nat` with explicit `< 2 ^ 16` bounds where the width matters.
-/

namespace HttpApiProblemLib

/-- The `HttpStatusCode` enum from src/lib.rs lines 342-404: all named
status-code variants plus the open `Unregistered` variant carrying the
raw `u16` (modelled as `Nat`). -/
inductive HttpStatusCode where
  | Continue
  | SwitchingProtocols
  | Processing
  | Ok
  | Created
  | Accepted
  | NonAuthoritativeInformation
  | NoContent
  | ResetContent
  | PartialContent
  | MultiStatus
  | AlreadyReported
  | ImUsed
  | MultipleChoices
  | MovedPermanently
  | Found
  | SeeOther
  | NotModified
  | UseProxy
  | TemporaryRedirect
  | PermanentRedirect
  | BadRequest
  | Unauthorized
  | PaymentRequired
  | Forbidden
  | NotFound
  | MethodNotAllowed
  | NotAcceptable
  | ProxyAuthenticationRequired
  | RequestTimeout
  | Conflict
  | Gone
  | LengthRequired
  | PreconditionFailed
  | PayloadTooLarge
  | UriTooLong
  | UnsupportedMediaType
  | RangeNotSatisfiable
  | ExpectationFailed
  | ImATeapot
  | MisdirectedRequest
  | UnprocessableEntity
  | Locked
  | FailedDependency
  | UpgradeRequired
  | PreconditionRequired
  | TooManyRequests
  | RequestHeaderFieldsTooLarge
  | UnavailableForLegalReasons
  | InternalServerError
  | NotImplemented
  | BadGateway
  | ServiceUnavailable
  | GatewayTimeout
  | HttpVersionNotSupported
  | VariantAlsoNegotiates
  | InsufficientStorage
  | LoopDetected
  | NotExtended
  | NetworkAuthenticationRequired
  | Unregistered (code : Nat)

namespace HttpStatusCode

/-- `HttpStatusCode::title` from src/lib.rs lines 407-480. -/
def title : HttpStatusCode → String
  | Continue => "Continue"
  | SwitchingProtocols => "Switching Protocols"
  | Processing => "Processing"
  | Ok => "Ok"
  | Created => "Created"
  | Accepted => "Accepted"
  | NonAuthoritativeInformation => "Non Authoritative Information"
  | NoContent => "No Content"
  | ResetContent => "Reset Content"
  | PartialContent => "Partial Content"
  | MultiStatus => "Multi Status"
  | AlreadyReported => "Already Reported"
  | ImUsed => "Im Used"
  | MultipleChoices => "Multiple Choices"
  | MovedPermanently => "Moved Permanently"
  | Found => "Found"
  | SeeOther => "See Other"
  | NotModified => "Not Modified"
  | UseProxy => "Use Proxy"
  | TemporaryRedirect => "Temporary Redirect"
  | PermanentRedirect => "Permanent Redirect"
  | BadRequest => "Bad Request"
  | Unauthorized => "Unauthorized"
  | PaymentRequired => "Payment Required"
  | Forbidden => "Forbidden"
  | NotFound => "Not Found"
  | MethodNotAllowed => "Method Not Allowed"
  | NotAcceptable => "Not Acceptable"
  | ProxyAuthenticationRequired => "Proxy Authentication Required"
  | RequestTimeout => "Request Timeout"
  | Conflict => "Conflict"
  | Gone => "Gone"
  | LengthRequired => "Length Required"
  | PreconditionFailed => "Precondition Failed"
  | PayloadTooLarge => "Payload Too Large"
  | UriTooLong => "Uri Too Long"
  | UnsupportedMediaType => "Unsupported Media Type"
  | RangeNotSatisfiable => "Range Not Satisfiable"
  | ExpectationFailed => "Expectation Failed"
  | ImATeapot => "Im A Teapot"
  | MisdirectedRequest => "Misdirected Request"
  | UnprocessableEntity => "Unprocessable Entity"
  | Locked => "Locked"
  | FailedDependency => "Failed Dependency"
  | UpgradeRequired => "Upgrade Required"
  | PreconditionRequired => "Precondition Required"
  | TooManyRequests => "Too Many Requests"
  | RequestHeaderFieldsTooLarge => "Request Header Fields Too Large"
  | UnavailableForLegalReasons => "Unavailable For Legal Reasons"
  | InternalServerError => "Internal Server Error"
  | NotImplemented => "Not Implemented"
  | BadGateway => "Bad Gateway"
  | ServiceUnavailable => "Service Unavailable"
  | GatewayTimeout => "Gateway Timeout"
  | HttpVersionNotSupported => "HTTP Version Not Supported"
  | VariantAlsoNegotiates => "Variant Also Negotiates"
  | InsufficientStorage => "Insufficient Storage"
  | LoopDetected => "Loop Detected"
  | NotExtended => "Not Extended"
  | NetworkAuthenticationRequired => "Network Authentication Required"
  | Unregistered code =>
      if code / 100 = 4 then "<Unregistered Client Error>"
      else if code / 100 = 5 then "<Unregistered Server Error>"
      else "<Unregistered Status Code>"

/-- `HttpStatusCode::to_u16` from src/lib.rs lines 482-548. -/
def to_u16 : HttpStatusCode → Nat
  | Continue => 100
  | SwitchingProtocols => 101
  | Processing => 102
  | Ok => 200
  | Created => 201
  | Accepted => 202
  | NonAuthoritativeInformation => 203
  | NoContent => 204
  | ResetContent => 205
  | PartialContent => 206
  | MultiStatus => 207
  | AlreadyReported => 208
  | ImUsed => 226
  | MultipleChoices => 300
  | MovedPermanently => 301
  | Found => 302
  | SeeOther => 303
  | NotModified => 304
  | UseProxy => 305
  | TemporaryRedirect => 307
  | PermanentRedirect => 308
  | BadRequest => 400
  | Unauthorized => 401
  | PaymentRequired => 402
  | Forbidden => 403
  | NotFound => 404
  | MethodNotAllowed => 405
  | NotAcceptable => 406
  | ProxyAuthenticationRequired => 407
  | RequestTimeout => 408
  | Conflict => 409
  | Gone => 410
  | LengthRequired => 411
  | PreconditionFailed => 412
  | PayloadTooLarge => 413
  | UriTooLong => 414
  | UnsupportedMediaType => 415
  | RangeNotSatisfiable => 416
  | ExpectationFailed => 417
  | ImATeapot => 418
  | MisdirectedRequest => 421
  | UnprocessableEntity => 422
  | Locked => 423
  | FailedDependency => 424
  | UpgradeRequired => 426
  | PreconditionRequired => 428
  | TooManyRequests => 429
  | RequestHeaderFieldsTooLarge => 431
  | UnavailableForLegalReasons => 451
  | InternalServerError => 500
  | NotImplemented => 501
  | BadGateway => 502
  | ServiceUnavailable => 503
  | GatewayTimeout => 504
  | HttpVersionNotSupported => 505
  | VariantAlsoNegotiates => 506
  | InsufficientStorage => 507
  | LoopDetected => 508
  | NotExtended => 510
  | NetworkAuthenticationRequired => 511
  | Unregistered n => n

/-- `impl From<u16> for HttpStatusCode` from src/lib.rs lines 550-617. -/
def from_u16 (n : Nat) : HttpStatusCode :=
  match n with
  | 100 => Continue
  | 101 => SwitchingProtocols
  | 102 => Processing
  | 200 => Ok
  | 201 => Created
  | 202 => Accepted
  | 203 => NonAuthoritativeInformation
  | 204 => NoContent
  | 205 => ResetContent
  | 206 => PartialContent
  | 207 => MultiStatus
  | 208 => AlreadyReported
  | 226 => ImUsed
  | 300 => MultipleChoices
  | 301 => MovedPermanently
  | 302 => Found
  | 303 => SeeOther
  | 304 => NotModified
  | 305 => UseProxy
  | 307 => TemporaryRedirect
  | 308 => PermanentRedirect
  | 400 => BadRequest
  | 401 => Unauthorized
  | 402 => PaymentRequired
  | 403 => Forbidden
  | 404 => NotFound
  | 405 => MethodNotAllowed
  | 406 => NotAcceptable
  | 407 => ProxyAuthenticationRequired
  | 408 => RequestTimeout
  | 409 => Conflict
  | 410 => Gone
  | 411 => LengthRequired
  | 412 => PreconditionFailed
  | 413 => PayloadTooLarge
  | 414 => UriTooLong
  | 415 => UnsupportedMediaType
  | 416 => RangeNotSatisfiable
  | 417 => ExpectationFailed
  | 418 => ImATeapot
  | 421 => MisdirectedRequest
  | 422 => UnprocessableEntity
  | 423 => Locked
  | 424 => FailedDependency
  | 426 => UpgradeRequired
  | 428 => PreconditionRequired
  | 429 => TooManyRequests
  | 431 => RequestHeaderFieldsTooLarge
  | 451 => UnavailableForLegalReasons
  | 500 => InternalServerError
  | 501 => NotImplemented
  | 502 => BadGateway
  | 503 => ServiceUnavailable
  | 504 => GatewayTimeout
  | 505 => HttpVersionNotSupported
  | 506 => VariantAlsoNegotiates
  | 507 => InsufficientStorage
  | 508 => LoopDetected
  | 510 => NotExtended
  | 511 => NetworkAuthenticationRequired
  | _ => Unregistered n

/-- `true` on every variant except the open `Unregistered` one. -/
def isNamed : HttpStatusCode → Bool
  | Unregistered _ => false
  | _ => true

end HttpStatusCode

/-- The `HttpApiProblem` struct from src/lib.rs lines 91-123.  The Rust
field `instance` is a Lean keyword, hence the quoted name. -/
structure HttpApiProblem where
  type_url : Option String
  status : Option Nat
  title : String
  detail : Option String
  «instance» : Option String
  deriving DecidableEq, Repr

namespace HttpApiProblem

/-- `HttpApiProblem::new` from src/lib.rs lines 141-149 (the generic
`T: Into<String>` argument is modelled as `String`). -/
def new (title : String) : HttpApiProblem :=
  { type_url := none
    status := none
    title := title
    detail := none
    «instance» := none }

/-- `HttpApiProblem::with_title_and_type_from_status` from src/lib.rs
lines 166-175.  The generic `T: Into<HttpStatusCode>` argument is
modelled as `HttpStatusCode`; a raw `u16` input corresponds to passing
`HttpStatusCode.from_u16 n`, which is exactly what `status.into()`
performs in the Rust source. -/
def with_title_and_type_from_status (status : HttpStatusCode) : HttpApiProblem :=
  { type_url := some ("https://httpstatuses.com/" ++ toString status.to_u16)
    status := some status.to_u16
    title := status.title
    detail := none
    «instance» := none }

/-- `HttpApiProblem::with_title_from_status` from src/lib.rs lines
192-201. -/
def with_title_from_status (status : HttpStatusCode) : HttpApiProblem :=
  { type_url := none
    status := some status.to_u16
    title := status.title
    detail := none
    «instance» := none }

/-- `HttpApiProblem::set_type_url` from src/lib.rs lines 220-224. -/
def set_type_url (self : HttpApiProblem) (type_url : String) : HttpApiProblem :=
  { self with type_url := some type_url }

/-- `HttpApiProblem::set_status` from src/lib.rs lines 242-247. -/
def set_status (self : HttpApiProblem) (status : HttpStatusCode) : HttpApiProblem :=
  { self with status := some status.to_u16 }

/-- `HttpApiProblem::set_title` from src/lib.rs lines 264-268. -/
def set_title (self : HttpApiProblem) (title : String) : HttpApiProblem :=
  { self with title := title }

/-- `HttpApiProblem::set_detail` from src/lib.rs lines 287-291. -/
def set_detail (self : HttpApiProblem) (detail : String) : HttpApiProblem :=
  { self with detail := some detail }

/-- `HttpApiProblem::set_instance` from src/lib.rs lines 310-314. -/
def set_instance (self : HttpApiProblem) (inst : String) : HttpApiProblem :=
  { self with «instance» := some inst }

end HttpApiProblem

/-- One call to one of the five public setters of `HttpApiProblem`,
used to reason about arbitrary sequences of public API calls. -/
inductive SetterOp where
  | setTypeUrl (u : String)
  | setStatus (s : HttpStatusCode)
  | setTitle (t : String)
  | setDetail (d : String)
  | setInstance (i : String)

/-- Apply one setter call to a problem value. -/
def applyOp (p : HttpApiProblem) : SetterOp → HttpApiProblem
  | SetterOp.setTypeUrl u => p.set_type_url u
  | SetterOp.setStatus s => p.set_status s
  | SetterOp.setTitle t => p.set_title t
  | SetterOp.setDetail d => p.set_detail d
  | SetterOp.setInstance i => p.set_instance i

/-- Apply a sequence of setter calls, left to right. -/
def applyOps (p : HttpApiProblem) (ops : List SetterOp) : HttpApiProblem :=
  ops.foldl applyOp p

/-- A JSON member value as it occurs in a serialized problem object:
a string or a (u16) number. -/
inductive Json where
  | str (s : String)
  | num (n : Nat)
  deriving DecidableEq, Repr

/-- The serde-derived serialization of `HttpApiProblem`, determined by
the attributes on src/lib.rs lines 91-123: members are emitted in field
declaration order, `type_url` is renamed to `type`
(`serde(rename = "type")`), and every `Option` field is omitted
entirely when `None` (`serde(skip_serializing_if = "Option::is_none")`).
The wire object is modelled as its ordered member list. -/
def serializeFields (p : HttpApiProblem) : List (String × Json) :=
  (match p.type_url with
    | none => []
    | some u => [("type", Json.str u)]) ++
  (match p.status with
    | none => []
    | some n => [("status", Json.num n)]) ++
  [("title", Json.str p.title)] ++
  (match p.detail with
    | none => []
    | some d => [("detail", Json.str d)]) ++
  (match p.«instance» with
    | none => []
    | some i => [("instance", Json.str i)])

/-- First value bound to `key` in a member list, if any. -/
def getField : List (String × Json) → String → Option Json
  | [], _ => none
  | (k, v) :: rest, key => if k = key then some v else getField rest key

/-- String-typed member lookup. -/
def getStr (fields : List (String × Json)) (key : String) : Option String :=
  match getField fields key with
  | some (Json.str s) => some s
  | _ => none

/-- Number-typed member lookup. -/
def getNum (fields : List (String × Json)) (key : String) : Option Nat :=
  match getField fields key with
  | some (Json.num n) => some n
  | _ => none

/-- The serde-derived deserialization of `HttpApiProblem` from a wire
member list: `title` is the one mandatory member, each optional member
is reconstructed as `some` when present and `none` when absent. -/
def deserializeFields (fields : List (String × Json)) : Option HttpApiProblem :=
  match getStr fields "title" with
  | none => none
  | some t =>
      some { type_url := getStr fields "type"
             status := getNum fields "status"
             title := t
             detail := getStr fields "detail"
             «instance» := getStr fields "instance" }

/-- Fuel-bounded helper computing the most significant decimal digit. -/
def leadingDigitAux : Nat → Nat → Nat
  | 0, n => n
  | fuel + 1, n => if n < 10 then n else leadingDigitAux fuel (n / 10)

/-- The leading (most significant) decimal digit of `n`, as the
phrase "leading digit" is used by the specification. -/
def leadingDigit (n : Nat) : Nat :=
  leadingDigitAux n n

namespace HttpStatusCode

/-- The number-to-name table composed with the name-to-number table is
the identity on every number. -/
lemma to_u16_from_u16 (n : Nat) : (from_u16 n).to_u16 = n := by
  unfold from_u16
  split <;> rfl

/-- The name-to-number table composed with the number-to-name table is
the identity on every named variant. -/
lemma from_u16_to_u16_named (v : HttpStatusCode) (h : v.isNamed = true) :
    from_u16 v.to_u16 = v := by
  cases v
  case Unregistered code => simp [isNamed] at h
  all_goals rfl

/-- A status code that is not named is the `Unregistered` variant
wrapping its own number. -/
lemma eq_unregistered_of_not_named (s : HttpStatusCode) (h : s.isNamed = false) :
    s = Unregistered s.to_u16 := by
  cases s
  case Unregistered code => rfl
  all_goals simp [isNamed] at h

/-- `from_u16 n` lands in the open variant exactly when `n` is not the
canonical number of any named variant. -/
lemma from_u16_not_named_iff (n : Nat) :
    (from_u16 n).isNamed = false ↔ ∀ v : HttpStatusCode, v.isNamed = true → v.to_u16 ≠ n := by
  constructor
  · intro h v hv hev
    have hrt := from_u16_to_u16_named v hv
    rw [hev] at hrt
    rw [hrt] at h
    rw [hv] at h
    exact Bool.noConfusion h
  · intro h
    by_contra hc
    have hnamed : (from_u16 n).isNamed = true := by
      cases hb : (from_u16 n).isNamed
      · exact absurd hb hc
      · rfl
    exact h (from_u16 n) hnamed (to_u16_from_u16 n)

end HttpStatusCode

/-- C1: for every 16-bit unsigned integer `n`, converting `n` to a
status code via the `From` conversion and back via `to_u16` returns `n`
unchanged; in particular unregistered values round-trip through the
`Unregistered` variant without data loss. -/
theorem C1_to_u16_after_from_u16 (n : Nat) (_h : n < 2 ^ 16) :
    (HttpStatusCode.from_u16 n).to_u16 = n :=
  HttpStatusCode.to_u16_from_u16 n

/-- C1 witness: the unregistered value 600 round-trips unchanged. -/
theorem C1_to_u16_after_from_u16_witness :
    600 < 2 ^ 16 ∧ (HttpStatusCode.from_u16 600).to_u16 = 600 :=
  ⟨by decide, C1_to_u16_after_from_u16 600 (by decide)⟩

/-- C2: for every named variant `v`, `from_u16 (to_u16 v) = v`, and the
numbering is injective on named variants, so the number-to-name table is
the true inverse of the name-to-number table on named variants. -/
theorem C2_from_u16_after_to_u16_named (v w : HttpStatusCode)
    (hv : v.isNamed = true) (hw : w.isNamed = true) :
    HttpStatusCode.from_u16 v.to_u16 = v ∧ (v.to_u16 = w.to_u16 → v = w) := by
  refine ⟨HttpStatusCode.from_u16_to_u16_named v hv, fun he => ?_⟩
  have h1 := HttpStatusCode.from_u16_to_u16_named v hv
  have h2 := HttpStatusCode.from_u16_to_u16_named w hw
  rw [he] at h1
  exact h1.symm.trans h2

/-- C2 witness: `NotFound` round-trips through its number 404, and
distinct named variants with equal numbers would be equal. -/
theorem C2_from_u16_after_to_u16_named_witness :
    HttpStatusCode.from_u16 HttpStatusCode.NotFound.to_u16 = HttpStatusCode.NotFound ∧
      (HttpStatusCode.NotFound.to_u16 = HttpStatusCode.ImATeapot.to_u16 →
        HttpStatusCode.NotFound = HttpStatusCode.ImATeapot) :=
  C2_from_u16_after_to_u16_named HttpStatusCode.NotFound HttpStatusCode.ImATeapot
    (by decide) (by decide)

/-- C3 counterexample: 4000 is not the canonical number of any named
variant and its leading decimal digit is 4, yet the title of
`from_u16 4000` is the generic unknown-status placeholder, not the
client-error placeholder the leading-digit rule of the claim selects. -/
theorem C3_leading_digit_counterexample :
    HttpStatusCode.from_u16 4000 = HttpStatusCode.Unregistered 4000 ∧
      leadingDigit 4000 = 4 ∧
      (HttpStatusCode.from_u16 4000).title ≠ "<Unregistered Client Error>" := by
  refine ⟨rfl, rfl, ?_⟩
  decide

/-- C3 amended: for every `n` that is not the canonical number of any
named variant, `from_u16 n` is `Unregistered n`, and its title is
selected by the hundreds digit `n / 100` (4 gives the client-error
placeholder, 5 the server-error placeholder, anything else the generic
placeholder); for three-digit codes this quotient equals the leading
decimal digit, but not in general. -/
theorem C3_unregistered_title (n : Nat) (_h1 : n < 2 ^ 16)
    (h2 : ∀ v : HttpStatusCode, v.isNamed = true → v.to_u16 ≠ n) :
    HttpStatusCode.from_u16 n = HttpStatusCode.Unregistered n ∧
      (HttpStatusCode.from_u16 n).title =
        (if n / 100 = 4 then "<Unregistered Client Error>"
          else if n / 100 = 5 then "<Unregistered Server Error>"
          else "<Unregistered Status Code>") := by
  have hn : (HttpStatusCode.from_u16 n).isNamed = false :=
    (HttpStatusCode.from_u16_not_named_iff n).mpr h2
  have he := HttpStatusCode.eq_unregistered_of_not_named _ hn
  rw [HttpStatusCode.to_u16_from_u16 n] at he
  refine ⟨he, ?_⟩
  rw [he]
  rfl

/-- C3 witness: 600 is unregistered; its title is the generic
placeholder because its hundreds digit is 6. -/
theorem C3_unregistered_title_witness :
    HttpStatusCode.from_u16 600 = HttpStatusCode.Unregistered 600 ∧
      (HttpStatusCode.from_u16 600).title =
        (if 600 / 100 = 4 then "<Unregistered Client Error>"
          else if 600 / 100 = 5 then "<Unregistered Server Error>"
          else "<Unregistered Status Code>") :=
  C3_unregistered_title 600 (by decide)
    ((HttpStatusCode.from_u16_not_named_iff 600).mp (by decide))

/-- C4 counterexample: `NotFound` and `Unregistered 404` denote the same
numeric code 404 but are not equal, so equality is not equivalent to
denoting the same numeric code. -/
theorem C4_same_number_not_equal :
    HttpStatusCode.NotFound.to_u16 = (HttpStatusCode.Unregistered 404).to_u16 ∧
      HttpStatusCode.NotFound ≠ HttpStatusCode.Unregistered 404 :=
  ⟨rfl, fun h => HttpStatusCode.noConfusion h⟩

/-- C4 amended: equality of status codes is structural. Between two
named variants it coincides with denoting the same numeric code;
between two `Unregistered` values it coincides with equality of the
wrapped numbers; but a named variant is never equal to an
`Unregistered` value, even when the numbers agree. -/
theorem C4_eq_characterization (a b : HttpStatusCode) :
    (a.isNamed = true → b.isNamed = true → (a = b ↔ a.to_u16 = b.to_u16)) ∧
      (∀ m k : Nat,
        (HttpStatusCode.Unregistered m = HttpStatusCode.Unregistered k) ↔ m = k) ∧
      (a.isNamed = true → b.isNamed = false → a ≠ b) := by
  refine ⟨fun ha hb => ⟨fun h => by rw [h], fun h => ?_⟩,
    fun m k => ⟨fun h => by injection h, fun h => by rw [h]⟩,
    fun ha hb hab => ?_⟩
  · have h1 := HttpStatusCode.from_u16_to_u16_named a ha
    have h2 := HttpStatusCode.from_u16_to_u16_named b hb
    rw [h] at h1
    exact h1.symm.trans h2
  · rw [hab, hb] at ha
    exact Bool.noConfusion ha

/-- C4 witness: the characterization applied at concrete codes. -/
theorem C4_eq_characterization_witness :
    (HttpStatusCode.NotFound = HttpStatusCode.BadRequest ↔
        HttpStatusCode.NotFound.to_u16 = HttpStatusCode.BadRequest.to_u16) ∧
      ((HttpStatusCode.Unregistered 600 = HttpStatusCode.Unregistered 601) ↔
        (600 : Nat) = 601) ∧
      HttpStatusCode.NotFound ≠ HttpStatusCode.Unregistered 7 :=
  ⟨(C4_eq_characterization HttpStatusCode.NotFound HttpStatusCode.BadRequest).1
      (by decide) (by decide),
    (C4_eq_characterization HttpStatusCode.NotFound HttpStatusCode.BadRequest).2.1 600 601,
    (C4_eq_characterization HttpStatusCode.NotFound (HttpStatusCode.Unregistered 7)).2.2
      (by decide) (by decide)⟩

/-- C5: `with_title_and_type_from_status` sets the title from the
registry, the status to the numeric code, the type url to the fixed
base reference URI with the numeric code appended, and leaves detail
and instance empty; in particular the raw input 428 yields the
documented concrete problem value. -/
theorem C5_with_title_and_type_from_status (s : HttpStatusCode) :
    (HttpApiProblem.with_title_and_type_from_status s).type_url =
        some ("https://httpstatuses.com/" ++ toString s.to_u16) ∧
      (HttpApiProblem.with_title_and_type_from_status s).status = some s.to_u16 ∧
      (HttpApiProblem.with_title_and_type_from_status s).title = s.title ∧
      (HttpApiProblem.with_title_and_type_from_status s).detail = none ∧
      (HttpApiProblem.with_title_and_type_from_status s).«instance» = none ∧
      HttpApiProblem.with_title_and_type_from_status (HttpStatusCode.from_u16 428) =
        { type_url := some "https://httpstatuses.com/428"
          status := some 428
          title := "Precondition Required"
          detail := none
          «instance» := none } := by
  refine ⟨rfl, rfl, rfl, rfl, rfl, ?_⟩
  decide

/-- C6: `with_title_from_status` sets the title from the registry and
the status to the numeric code while type url, detail and instance stay
empty; in particular the raw input 404 yields status 404 and title
"Not Found" with empty type url. -/
theorem C6_with_title_from_status (s : HttpStatusCode) :
    (HttpApiProblem.with_title_from_status s).type_url = none ∧
      (HttpApiProblem.with_title_from_status s).status = some s.to_u16 ∧
      (HttpApiProblem.with_title_from_status s).title = s.title ∧
      (HttpApiProblem.with_title_from_status s).detail = none ∧
      (HttpApiProblem.with_title_from_status s).«instance» = none ∧
      HttpApiProblem.with_title_from_status (HttpStatusCode.from_u16 404) =
        { type_url := none
          status := some 404
          title := "Not Found"
          detail := none
          «instance» := none } := by
  refine ⟨rfl, rfl, rfl, rfl, rfl, ?_⟩
  decide

/-- C7: `new t` has title exactly `t` and all four optional fields
empty. -/
theorem C7_new_fields (t : String) :
    (HttpApiProblem.new t).title = t ∧
      (HttpApiProblem.new t).type_url = none ∧
      (HttpApiProblem.new t).status = none ∧
      (HttpApiProblem.new t).detail = none ∧
      (HttpApiProblem.new t).«instance» = none :=
  ⟨rfl, rfl, rfl, rfl, rfl⟩

/-- C8: each of the five setters overwrites exactly its own field and
leaves every other field unchanged, and a later call of the same setter
overwrites the value written by an earlier one. -/
theorem C8_setters_frame (p : HttpApiProblem) (a b : String)
    (s1 s2 : HttpStatusCode) :
    ((p.set_type_url a).type_url = some a ∧
        (p.set_type_url a).status = p.status ∧
        (p.set_type_url a).title = p.title ∧
        (p.set_type_url a).detail = p.detail ∧
        (p.set_type_url a).«instance» = p.«instance» ∧
        (p.set_type_url a).set_type_url b = p.set_type_url b) ∧
      ((p.set_status s1).status = some s1.to_u16 ∧
        (p.set_status s1).type_url = p.type_url ∧
        (p.set_status s1).title = p.title ∧
        (p.set_status s1).detail = p.detail ∧
        (p.set_status s1).«instance» = p.«instance» ∧
        (p.set_status s1).set_status s2 = p.set_status s2) ∧
      ((p.set_title a).title = a ∧
        (p.set_title a).type_url = p.type_url ∧
        (p.set_title a).status = p.status ∧
        (p.set_title a).detail = p.detail ∧
        (p.set_title a).«instance» = p.«instance» ∧
        (p.set_title a).set_title b = p.set_title b) ∧
      ((p.set_detail a).detail = some a ∧
        (p.set_detail a).type_url = p.type_url ∧
        (p.set_detail a).status = p.status ∧
        (p.set_detail a).title = p.title ∧
        (p.set_detail a).«instance» = p.«instance» ∧
        (p.set_detail a).set_detail b = p.set_detail b) ∧
      ((p.set_instance a).«instance» = some a ∧
        (p.set_instance a).type_url = p.type_url ∧
        (p.set_instance a).status = p.status ∧
        (p.set_instance a).title = p.title ∧
        (p.set_instance a).detail = p.detail ∧
        (p.set_instance a).set_instance b = p.set_instance b) :=
  ⟨⟨rfl, rfl, rfl, rfl, rfl, rfl⟩,
    ⟨rfl, rfl, rfl, rfl, rfl, rfl⟩,
    ⟨rfl, rfl, rfl, rfl, rfl, rfl⟩,
    ⟨rfl, rfl, rfl, rfl, rfl, rfl⟩,
    ⟨rfl, rfl, rfl, rfl, rfl, rfl⟩⟩

/-- C9: a problem with only a title serializes to a wire object with
exactly the one member `title`, and deserializing any serialized
problem reconstructs it exactly, with absent wire members becoming
empty optionals. -/
theorem C9_serialization_roundtrip :
    (∀ t : String,
        serializeFields (HttpApiProblem.new t) = [("title", Json.str t)]) ∧
      ∀ p : HttpApiProblem, deserializeFields (serializeFields p) = some p := by
  refine ⟨fun t => rfl, fun p => ?_⟩
  obtain ⟨tu, st, t, d, i⟩ := p
  cases tu <;> cases st <;> cases d <;> cases i <;>
    simp [serializeFields, deserializeFields, getField, getStr, getNum]

/-- One setter call keeps every present optional field present. -/
lemma applyOp_presence (p : HttpApiProblem) (op : SetterOp) :
    (p.type_url.isSome = true → (applyOp p op).type_url.isSome = true) ∧
      (p.status.isSome = true → (applyOp p op).status.isSome = true) ∧
      (p.detail.isSome = true → (applyOp p op).detail.isSome = true) ∧
      (p.«instance».isSome = true → (applyOp p op).«instance».isSome = true) := by
  cases op
  · exact ⟨fun _ => rfl, id, id, id⟩
  · exact ⟨id, fun _ => rfl, id, id⟩
  · exact ⟨id, id, id, id⟩
  · exact ⟨id, id, fun _ => rfl, id⟩
  · exact ⟨id, id, id, fun _ => rfl⟩

/-- C10: no sequence of public setter calls can return an optional
field to the absent state: any optional field that is present stays
present under every sequence of setter calls. -/
theorem C10_presence_monotone (p : HttpApiProblem) (ops : List SetterOp) :
    (p.type_url.isSome = true → (applyOps p ops).type_url.isSome = true) ∧
      (p.status.isSome = true → (applyOps p ops).status.isSome = true) ∧
      (p.detail.isSome = true → (applyOps p ops).detail.isSome = true) ∧
      (p.«instance».isSome = true → (applyOps p ops).«instance».isSome = true) := by
  induction ops generalizing p with
  | nil => exact ⟨id, id, id, id⟩
  | cons op rest ih =>
    have hs := applyOp_presence p op
    have ht := ih (applyOp p op)
    exact ⟨fun h => ht.1 (hs.1 h), fun h => ht.2.1 (hs.2.1 h),
      fun h => ht.2.2.1 (hs.2.2.1 h), fun h => ht.2.2.2 (hs.2.2.2 h)⟩

/-- C10 witness: a fully populated problem keeps all four optional
fields present across a chain of setter calls. -/
theorem C10_presence_monotone_witness :
    (applyOps
        { type_url := some "https://httpstatuses.com/404"
          status := some 404
          title := "Not Found"
          detail := some "d"
          «instance» := some "/x" }
        [SetterOp.setTitle "Changed", SetterOp.setDetail "e",
          SetterOp.setStatus HttpStatusCode.ImATeapot]).type_url.isSome = true ∧
      (applyOps
        { type_url := some "https://httpstatuses.com/404"
          status := some 404
          title := "Not Found"
          detail := some "d"
          «instance» := some "/x" }
        [SetterOp.setTitle "Changed", SetterOp.setDetail "e",
          SetterOp.setStatus HttpStatusCode.ImATeapot]).status.isSome = true ∧
      (applyOps
        { type_url := some "https://httpstatuses.com/404"
          status := some 404
          title := "Not Found"
          detail := some "d"
          «instance» := some "/x" }
        [SetterOp.setTitle "Changed", SetterOp.setDetail "e",
          SetterOp.setStatus HttpStatusCode.ImATeapot]).«instance».isSome = true := by
  have h := C10_presence_monotone
    { type_url := some "https://httpstatuses.com/404"
      status := some 404
      title := "Not Found"
      detail := some "d"
      «instance» := some "/x" }
    [SetterOp.setTitle "Changed", SetterOp.setDetail "e",
      SetterOp.setStatus HttpStatusCode.ImATeapot]
  exact ⟨h.1 rfl, h.2.1 rfl, h.2.2.2 rfl⟩

end HttpApiProblemLib
